import Mathlib

/-!
Verification of the AlgoKit transaction-group composer
(`src/types/composer.ts`, class `AlgokitComposer`).

The development shallowly embeds the composer: the common build step
(`commonTxnBuildStep`), the typed builders (`buildPayment`, `buildAppCall`),
the method-call argument resolver (`buildMethodCall`) and the
`build`/`rebuild` state machine, together with the algosdk collaborators the
composer drives (the `AtomicTransactionComposer`, transaction constructors,
the TEAL compiler, the signer registry and the network-parameter source),
modelled at their interface boundary and threaded through an explicit
environment `Env`.

JavaScript idioms are translated explicitly: `x ?? y` becomes `Option.getD`,
`x || y` on numbers becomes `jsOr` (which substitutes `y` only when `x` is
zero), the truthiness test `if (x)` on an optional number treats `0` like
`undefined`, and `typeof` becomes `typeofJS`.  Fallible code returns
`Except String`.
-/

namespace Composer

/-- Byte sequences (JS `Uint8Array`), as lists of byte values. -/
abbrev Bytes := List Nat

/-- Amount wrapper from `types/amount`; only its microAlgo payload is read by
the composer. -/
structure AlgoAmount where
  microAlgos : Nat
deriving Repr, DecidableEq

/-- Modelled from the spec: `types/amount.ts` is not among the embedded
sources.  The fee-ceiling error interpolates the `AlgoAmount` object itself,
and the spec only requires that the ceiling appear in the message; the
rendering is modelled as the decimal microAlgo value followed by the unit. -/
def algoAmountText (a : AlgoAmount) : String :=
  toString a.microAlgos ++ " µALGO"

/-- Network parameters returned by the network-parameter source
(`algosdk.SuggestedParams`, at the interface boundary of §6): fee-per-byte,
current first/last valid rounds and the network identifier. -/
structure SuggestedParams where
  fee : Nat
  firstRound : Nat
  lastRound : Nat
  genesisID : String
deriving Repr, DecidableEq

/-- `algosdk.ALGORAND_MIN_TX_FEE`. -/
def ALGORAND_MIN_TX_FEE : Nat := 1000

/-- `MAX_TRANSACTION_GROUP_SIZE` (composer.ts line 12). -/
def MAX_TRANSACTION_GROUP_SIZE : Nat := 16

/-- JS `a || b` on non-negative numbers: `b` is used exactly when `a` is
falsy, i.e. zero. -/
def jsOr (a b : Nat) : Nat :=
  if a == 0 then b else a

/-- Signing capabilities are opaque to the composer; they are modelled as
identifiers. -/
abbrev Signer := Nat

/-- `CommonTransactionParams`: the shared parameters of every intent.
`note` and `lease` are modelled as their encoded byte form (the spec: the
note is pre-encoded and the lease copied verbatim).  `signer` holds the
signing capability (a `TransactionSignerAccount`'s `.signer` and a plain
`TransactionSigner` are not distinguished by the composer beyond
projection). -/
structure CommonTransactionParams where
  sender : String
  signer : Option Signer := none
  rekeyTo : Option String := none
  note : Option Bytes := none
  lease : Option Bytes := none
  staticFee : Option AlgoAmount := none
  extraFee : Option AlgoAmount := none
  maxFee : Option AlgoAmount := none
  validityWindow : Option Nat := none
  firstValidRound : Option Nat := none
  lastValidRound : Option Nat := none
deriving Repr, DecidableEq

/-- Payload of a payment transaction. -/
structure PayTxnFields where
  receiver : String
  amount : Nat
  closeRemainderTo : Option String := none
deriving Repr, DecidableEq

/-- Payload of an application-call transaction, as assembled by the algosdk
constructors from the composer's `sdkParams`.  The ABI selector/argument
encoding placed into `appArgs` is algosdk-internal and not modelled. -/
structure AppTxnFields where
  appIndex : Nat
  onComplete : Nat
  approvalProgram : Option Bytes := none
  clearProgram : Option Bytes := none
  numLocalInts : Option Nat := none
  numLocalByteSlices : Option Nat := none
  numGlobalInts : Option Nat := none
  numGlobalByteSlices : Option Nat := none
  extraPages : Option Nat := none
  appAccounts : Option (List String) := none
  appForeignApps : Option (List Nat) := none
  appForeignAssets : Option (List Nat) := none
  boxes : Option (List (Nat × Bytes)) := none
deriving Repr, DecidableEq

/-- Kind-specific payload of a built transaction (the kinds the verified
claims exercise). -/
inductive TxnBody where
  | pay (f : PayTxnFields)
  | appl (f : AppTxnFields)
deriving Repr, DecidableEq

/-- A built `algosdk.Transaction`, restricted to the fields the composer
reads or writes. -/
structure Transaction where
  sender : String
  body : TxnBody
  fee : Nat := 0
  flatFee : Bool := false
  firstRound : Nat := 0
  lastRound : Nat := 0
  note : Option Bytes := none
  lease : Option Bytes := none
  rekeyTo : Option String := none
  genesisID : String := ""
  group : Option Nat := none
deriving Repr, DecidableEq

/-- `algosdk.TransactionWithSigner`. -/
structure TransactionWithSigner where
  txn : Transaction
  signer : Signer
deriving Repr, DecidableEq

/-- External collaborators (§6), at their interface boundary: byte-size
estimation of an unsigned transaction, the TEAL compiler (deterministic, so
the composer's per-source cache is transparent), the signer registry, the
network-parameter source (which can fail), and address decoding. -/
structure Env where
  estimateSize : Transaction → Nat
  compile : String → Bytes
  getSigner : String → Signer
  getSuggestedParams : Except String SuggestedParams
  decodeAddress : String → Bytes

/-- Fee-ceiling error text: `Transaction fee ${txn.fee} is greater than
maxFee ${params.maxFee}` (composer.ts line 742). -/
def feeTooHighMessage (fee : Nat) (mf : AlgoAmount) : String :=
  "Transaction fee " ++ toString fee ++ " is greater than maxFee " ++ algoAmountText mf

/-- Line 715: `if (params.lease) txn.addLease(encodeLease(params.lease)!)`. -/
def setLeaseField (params : CommonTransactionParams) (txn : Transaction) : Transaction :=
  if params.lease.isSome then { txn with lease := params.lease } else txn

/-- Line 716: `if (params.rekeyTo) txn.addRekey(params.rekeyTo)` (an empty
string is falsy). -/
def setRekeyField (params : CommonTransactionParams) (txn : Transaction) : Transaction :=
  match params.rekeyTo with
  | some r => if r ≠ "" then { txn with rekeyTo := some r } else txn
  | none => txn

/-- Line 717: `if (params.note) txn.note = encodeTransactionNote(params.note)`. -/
def setNoteField (params : CommonTransactionParams) (txn : Transaction) : Transaction :=
  if params.note.isSome then { txn with note := params.note } else txn

/-- Lines 719-721: the first-valid round is overridden only when a truthy
(nonzero) explicit value is supplied. -/
def setFirstValidField (params : CommonTransactionParams) (txn : Transaction) : Transaction :=
  match params.firstValidRound with
  | some v => if v ≠ 0 then { txn with firstRound := v } else txn
  | none => txn

/-- Lines 723-727: a truthy (nonzero) explicit last-valid round wins;
otherwise `lastRound = firstRound + (validityWindow ?? defaultValidityWindow)`. -/
def setLastValidField (dvw : Nat) (params : CommonTransactionParams)
    (txn : Transaction) : Transaction :=
  match params.lastValidRound with
  | some v =>
    if v ≠ 0 then { txn with lastRound := v }
    else { txn with lastRound := txn.firstRound + params.validityWindow.getD dvw }
  | none => { txn with lastRound := txn.firstRound + params.validityWindow.getD dvw }

/-- Pure field-mutation prefix of `commonTxnBuildStep` (lines 715-727):
lease, rekey, note, then first/last valid rounds, in source order.  JS
truthiness: a supplied round of `0` is falsy and is treated like an absent
one. -/
def applyCommonFields (dvw : Nat) (params : CommonTransactionParams)
    (txn : Transaction) : Transaction :=
  setLastValidField dvw params
    (setFirstValidField params (setNoteField params (setRekeyField params (setLeaseField params txn))))

/-- `commonTxnBuildStep` (composer.ts lines 714-746).  `dvw` is the
composer's `defaultValidityWindow`. -/
def commonTxnBuildStep (env : Env) (dvw : Nat) (params : CommonTransactionParams)
    (txn : Transaction) (sp : SuggestedParams) : Except String Transaction :=
  let t := applyCommonFields dvw params txn
  if params.staticFee.isSome && params.extraFee.isSome then
    .error "Cannot set both staticFee and extraFee"
  else
    let t2 :=
      match params.staticFee with
      | some f => { t with fee := f.microAlgos }
      | none =>
        let base := jsOr (env.estimateSize t * sp.fee) ALGORAND_MIN_TX_FEE
        { t with fee := base + (match params.extraFee with
            | some e => e.microAlgos
            | none => 0) }
    let t3 := { t2 with flatFee := true }
    match params.maxFee with
    | some mf =>
      if t3.fee > mf.microAlgos then .error (feeTooHighMessage t3.fee mf)
      else .ok t3
    | none => .ok t3

/-- `BoxIdentifier`: raw bytes, text, or a `TransactionSignerAccount`
(encoded through its address's public key). -/
inductive BoxIdentifier where
  | text (s : String)
  | bytes (b : Bytes)
  | account (addr : String)
deriving Repr, DecidableEq

/-- `BoxIdentifier | BoxReference` as accepted by `getBoxReference`. -/
inductive BoxIdOrRef where
  | plain (b : BoxIdentifier)
  | withApp (appId : Nat) (name : BoxIdentifier)
deriving Repr, DecidableEq

/-- UTF-8 encoding of text box names (`TextEncoder`). -/
def utf8Bytes (s : String) : Bytes :=
  s.toUTF8.toList.map (fun b => b.toNat)

/-- Name half of `AlgokitComposer.getBoxReference` (lines 757-762). -/
def boxNameBytes (env : Env) : BoxIdentifier → Bytes
  | .text s => utf8Bytes s
  | .bytes b => b
  | .account addr => env.decodeAddress addr

/-- `AlgokitComposer.getBoxReference` (lines 753-764): a bare identifier is
paired with app id 0 ("this app"). -/
def getBoxReference (env : Env) : BoxIdOrRef → Nat × Bytes
  | .plain b => (0, boxNameBytes env b)
  | .withApp a n => (a, boxNameBytes env n)

/-- State schema of an application-create intent. -/
structure StateSchema where
  globalInts : Nat
  globalByteSlices : Nat
  localInts : Nat
  localByteSlices : Nat
deriving Repr, DecidableEq

/-- A program supplied either as TEAL source text (compiled through algod)
or as already-compiled bytes. -/
inductive ProgramSource where
  | teal (source : String)
  | compiled (b : Bytes)
deriving Repr, DecidableEq

/-- Union of the field shapes of `AppCallParams`, `AppCreateParams` and
`AppUpdateParams` as consumed by `buildAppCall`/`buildMethodCall`.  A `none`
models the absence of the corresponding key (the source probes presence with
the `in` operator); in particular `appId := none` models create-shaped
params, which carry no `appId` key. -/
structure AppParams where
  common : CommonTransactionParams
  appId : Option Nat := none
  onComplete : Option Nat := none
  approvalProgram : Option ProgramSource := none
  clearProgram : Option ProgramSource := none
  schema : Option StateSchema := none
  extraPages : Option Nat := none
  accountReferences : Option (List String) := none
  appReferences : Option (List Nat) := none
  assetReferences : Option (List Nat) := none
  boxReferences : Option (List BoxIdOrRef) := none
deriving Repr, DecidableEq

/-- An ABI method-call intent minus its argument list (`AppMethodCall<…>`);
the ABI method is identified by its name. -/
structure MethodCallCore where
  app : AppParams
  method : String
deriving Repr, DecidableEq

/-- `algosdk.OnApplicationComplete.UpdateApplicationOC`. -/
def UpdateApplicationOC : Nat := 4

/-- Resolution of the `approvalProgram` field (lines 808-813 / 938-943):
TEAL text is compiled via algod, bytes pass through, an absent key yields
`undefined`. -/
def resolveApprovalProgram (env : Env) (p : AppParams) : Option Bytes :=
  match p.approvalProgram with
  | none => none
  | some (.teal s) => some (env.compile s)
  | some (.compiled b) => some b

/-- Resolution of the `clearProgram` field (lines 814-819 / 944-949).  The
source reads `params.approvalProgram` on both sides of the inner
conditional, so the supplied `clearProgram` value only gates whether the key
is present. -/
def resolveClearProgram (env : Env) (p : AppParams) : Option Bytes :=
  match p.clearProgram with
  | none => none
  | some _ =>
    match p.approvalProgram with
    | some (.teal s) => some (env.compile s)
    | some (.compiled b) => some b
    | none => none

mutual

/-- JS runtime values that can appear in a method-call argument list
(`algosdk.ABIValue | TransactionWithSigner | Transaction |
Promise<Transaction> | AppMethodCall<…>`).  `jsTxn` covers a transaction or
a promise of one (awaiting either yields the transaction).  Argument lists
are a mutually inductive list type so that the recursive resolver below is
structurally recursive. -/
inductive JSVal where
  | jsBool (b : Bool)
  | jsNum (n : Nat)
  | jsBigInt (n : Nat)
  | jsStr (s : String)
  | jsBytes (b : Bytes)
  | jsArr (elems : JSValList)
  | jsTws (t : TransactionWithSigner)
  | jsTxn (t : Transaction)
  | jsMethodCall (core : MethodCallCore) (args : JSValList)

/-- A JS array of `JSVal`s. -/
inductive JSValList where
  | nil
  | cons (hd : JSVal) (tl : JSValList)

end

/-- Length of a `JSValList` (JS `x.length`). -/
def JSValList.length : JSValList → Nat
  | .nil => 0
  | .cons _ tl => tl.length + 1

/-- JS `typeof`.  A `Uint8Array`, an array, a transaction object, a promise
and a method-call params object are all objects. -/
def typeofJS : JSVal → String
  | .jsBool _ => "boolean"
  | .jsNum _ => "number"
  | .jsBigInt _ => "bigint"
  | .jsStr _ => "string"
  | _ => "object"

mutual

/-- `isAbiValue` (composer.ts lines 771-775), verbatim: arrays recurse over
their elements; everything else is tested by comparing `typeof` against a
fixed list of tag strings. -/
def isAbiValue : JSVal → Bool
  | .jsArr xs => xs.length == 0 || isAbiValueList xs
  | x => ["boolean", "number", "bigint", "string", "Uint8Array"].contains (typeofJS x)

/-- `x.every(isAbiValue)`. -/
def isAbiValueList : JSValList → Bool
  | .nil => true
  | .cons x xs => isAbiValue x && isAbiValueList xs

end

mutual

/-- Modelled from the spec (§3 MethodArgument), for comparison with
`isAbiValue`: "an argument is an ABI value iff it is not an array containing
a non-ABI-value and its scalar type is one of the recognized primitive kinds
(boolean, integer, string, byte sequence, or arbitrarily nested arrays
thereof)". -/
def specIsAbiValue : JSVal → Bool
  | .jsBool _ => true
  | .jsNum _ => true
  | .jsBigInt _ => true
  | .jsStr _ => true
  | .jsBytes _ => true
  | .jsArr xs => specIsAbiValueList xs
  | _ => false

/-- Elementwise `specIsAbiValue`. -/
def specIsAbiValueList : JSValList → Bool
  | .nil => true
  | .cons x xs => specIsAbiValue x && specIsAbiValueList xs

end

/-- `algosdk.isTransactionWithSigner`: an object carrying both a `txn` and a
`signer` property. -/
def isTransactionWithSigner : JSVal → Bool
  | .jsTws _ => true
  | _ => false

/-- Signer resolution for an intent: the explicit signer if present
(projecting a `TransactionSignerAccount` to its `.signer`), otherwise the
registry lookup for the sender (composer.ts lines 837 and 1023). -/
def resolveSigner (env : Env) (p : CommonTransactionParams) : Signer :=
  p.signer.getD (env.getSigner p.sender)

/-- An entry of the `methodArgs` list handed to
`AtomicTransactionComposer.addMethodCall`: a plain ABI value pushed
unchanged, or a transaction argument with its signer. -/
inductive ABIArgument where
  | value (v : JSVal)
  | txn (t : TransactionWithSigner)

/-- Transaction-typed entries of a `methodArgs` list, in order: these are
the transactions the atomic-transaction composer places in the group before
the method call's own transaction. -/
def extractTxnArgs : List ABIArgument → List TransactionWithSigner
  | [] => []
  | .txn t :: rest => t :: extractTxnArgs rest
  | .value _ :: rest => extractTxnArgs rest

/-- Group-id scrubbing done by `buildAtc` (lines 703-706): every member's
`group` field is reset, undoing the linking the inner composer applied. -/
def stripGroup (t : TransactionWithSigner) : TransactionWithSigner :=
  { t with txn := { t.txn with group := none } }

/-- `makePaymentTxnWithSuggestedParamsFromObject`, at the interface
boundary: a payment skeleton carrying the suggested rounds and genesis id. -/
def makePaymentTxn (p : CommonTransactionParams) (receiver : String) (amount : Nat)
    (closeRemainderTo : Option String) (sp : SuggestedParams) : Transaction :=
  { sender := p.sender
    body := .pay { receiver := receiver, amount := amount, closeRemainderTo := closeRemainderTo }
    fee := sp.fee
    firstRound := sp.firstRound
    lastRound := sp.lastRound
    genesisID := sp.genesisID }

/-- The `sdkParams` record assembled by `buildAppCall` (lines 951-966):
references mapped to wire form, schema numbers passed through as-is
(`undefined` stays `undefined`). -/
def appCallSdkFields (env : Env) (p : AppParams) (approval clear : Option Bytes) : AppTxnFields :=
  { appIndex := 0
    onComplete := p.onComplete.getD UpdateApplicationOC
    approvalProgram := approval
    clearProgram := clear
    numLocalInts := p.schema.map (fun s => s.localInts)
    numLocalByteSlices := p.schema.map (fun s => s.localByteSlices)
    numGlobalInts := p.schema.map (fun s => s.globalInts)
    numGlobalByteSlices := p.schema.map (fun s => s.globalByteSlices)
    extraPages := p.extraPages
    appAccounts := p.accountReferences
    appForeignApps := p.appReferences
    appForeignAssets := p.assetReferences
    boxes := p.boxReferences.map (fun l => l.map (getBoxReference env)) }

/-- `makeApplicationCreateTxnFromObject` as invoked at lines 975-984:
`sdkParams` with the schema numbers defaulted to 0 and app index 0. -/
def makeApplicationCreateTxn (env : Env) (p : AppParams) (approval clear : Option Bytes)
    (sp : SuggestedParams) : Transaction :=
  let f := appCallSdkFields env p approval clear
  { sender := p.common.sender
    body := .appl { f with
      appIndex := 0
      numLocalInts := some (f.numLocalInts.getD 0)
      numLocalByteSlices := some (f.numLocalByteSlices.getD 0)
      numGlobalInts := some (f.numGlobalInts.getD 0)
      numGlobalByteSlices := some (f.numGlobalByteSlices.getD 0) }
    fee := sp.fee
    firstRound := sp.firstRound
    lastRound := sp.lastRound
    genesisID := sp.genesisID }

/-- `makeApplicationCallTxnFromObject({ ...sdkParams, appIndex: appId })` as
invoked at line 987. -/
def makeApplicationCallTxn (env : Env) (p : AppParams) (appId : Nat)
    (approval clear : Option Bytes) (sp : SuggestedParams) : Transaction :=
  { sender := p.common.sender
    body := .appl { appCallSdkFields env p approval clear with appIndex := appId }
    fee := sp.fee
    firstRound := sp.firstRound
    lastRound := sp.lastRound
    genesisID := sp.genesisID }

/-- `buildAppCall` (composer.ts lines 936-990).  When the app id is 0 the
programs are validated and a creation transaction is constructed, but the
unconditional assignment at line 987 then replaces it with the generic call
transaction, which is what reaches the common build step. -/
def buildAppCall (env : Env) (dvw : Nat) (p : AppParams) (sp : SuggestedParams) :
    Except String Transaction :=
  let appId := p.appId.getD 0
  let approval := resolveApprovalProgram env p
  let clear := resolveClearProgram env p
  if appId == 0 && (approval.isNone || clear.isNone) then
    .error "approvalProgram and clearProgram are required for application creation"
  else
    let _discardedCreate :=
      if appId == 0 then some (makeApplicationCreateTxn env p approval clear sp) else none
    let txn := makeApplicationCallTxn env p appId approval clear sp
    commonTxnBuildStep env dvw p.common txn sp

/-- Schema-number defaulting inside `addMethodCall`'s invocation
(lines 832-835): `(schema value) ?? (appId === 0 ? 0 : undefined)`. -/
def methodCallSchemaField (appId : Nat) (v : Option Nat) : Option Nat :=
  match v with
  | some n => some n
  | none => if appId == 0 then some 0 else none

/-- The application-call transaction the inner atomic-transaction composer
constructs for the method call itself (lines 820-843); note, lease and
rekey are deliberately left unset there ("set in the common build step"). -/
def makeMethodCallTxn (env : Env) (core : MethodCallCore) (appId : Nat)
    (approval clear : Option Bytes) (sp : SuggestedParams) : Transaction :=
  { sender := core.app.common.sender
    body := .appl
      { appIndex := appId
        onComplete := core.app.onComplete.getD UpdateApplicationOC
        approvalProgram := approval
        clearProgram := clear
        numLocalInts := methodCallSchemaField appId (core.app.schema.map (fun s => s.localInts))
        numLocalByteSlices := methodCallSchemaField appId (core.app.schema.map (fun s => s.localByteSlices))
        numGlobalInts := methodCallSchemaField appId (core.app.schema.map (fun s => s.globalInts))
        numGlobalByteSlices := methodCallSchemaField appId (core.app.schema.map (fun s => s.globalByteSlices))
        extraPages := core.app.extraPages
        appAccounts := core.app.accountReferences
        appForeignApps := core.app.appReferences
        appForeignAssets := core.app.assetReferences
        boxes := core.app.boxReferences.map (fun l => l.map (getBoxReference env)) }
    fee := sp.fee
    firstRound := sp.firstRound
    lastRound := sp.lastRound
    genesisID := sp.genesisID }

/-- Assembly tail of `buildMethodCall` (composer.ts lines 805-851), after
the argument loop has produced `methodArgs`: the inner atomic-transaction
composer's `addMethodCall` places the transaction-typed arguments before
the method call's own transaction (whose creation form is validated to
carry both programs), that transaction is routed through the common build
step (lines 845-848), and `buildAtc` returns the group with its group ids
scrubbed.  The inner composer's ABI signature/argument-count validation is
not modelled. -/
def assembleMethodCall (env : Env) (dvw : Nat) (core : MethodCallCore)
    (sp : SuggestedParams) (methodArgs : List ABIArgument) :
    Except String (List TransactionWithSigner) :=
  let appId := core.app.appId.getD 0
  let approval := resolveApprovalProgram env core.app
  let clear := resolveClearProgram env core.app
  if appId == 0 && (approval.isNone || clear.isNone) then
    .error "approvalProgram and clearProgram must be supplied for application creation"
  else
    let methodTxn := makeMethodCallTxn env core appId approval clear sp
    match commonTxnBuildStep env dvw core.app.common methodTxn sp with
    | .error e => .error e
    | .ok builtTxn =>
      let methodSigner := resolveSigner env core.app.common
      .ok ((extractTxnArgs methodArgs ++
        [TransactionWithSigner.mk builtTxn methodSigner]).map stripGroup)

mutual

/-- The argument loop of `buildMethodCall` (lines 777-803), one argument at
a time, accumulating `methodArgs`. -/
def collectMethodArgs (env : Env) (dvw : Nat) (outer : CommonTransactionParams)
    (args : JSValList) (sp : SuggestedParams) : Except String (List ABIArgument) :=
  match args with
  | .nil => .ok []
  | .cons arg rest =>
    match collectOneArg env dvw outer arg sp with
    | .error e => .error e
    | .ok contrib =>
      match collectMethodArgs env dvw outer rest sp with
      | .error e => .error e
      | .ok others => .ok (contrib ++ others)

/-- Classification of one argument, in source order: `isAbiValue`, then
`isTransactionWithSigner`, then `'method' in arg` (recursive resolution —
`await this.buildMethodCall(arg, suggestedParams)` is inlined here as
argument loop plus assembly so the recursion is structural; `buildMethodCall`
below packages the same composition — with all resulting transactions
spread into `methodArgs`), else `await arg` followed by signer attachment —
awaiting anything that is not a transaction then crashes on reading `.from`
of the result. -/
def collectOneArg (env : Env) (dvw : Nat) (outer : CommonTransactionParams)
    (arg : JSVal) (sp : SuggestedParams) : Except String (List ABIArgument) :=
  if isAbiValue arg then .ok [.value arg]
  else
    match arg with
    | .jsTws t => .ok [.txn t]
    | .jsMethodCall core nestedArgs =>
      match collectMethodArgs env dvw core.app.common nestedArgs sp with
      | .error e => .error e
      | .ok nestedMethodArgs =>
        match assembleMethodCall env dvw core sp nestedMethodArgs with
        | .error e => .error e
        | .ok ts => .ok (ts.map ABIArgument.txn)
    | .jsTxn t =>
      .ok [.txn ⟨t, outer.signer.getD (env.getSigner t.sender)⟩]
    | _ => .error "TypeError: Cannot read properties of undefined (reading publicKey)"

end

/-- `buildMethodCall` (composer.ts lines 766-851): the argument loop
followed by the assembly tail. -/
def buildMethodCall (env : Env) (dvw : Nat) (core : MethodCallCore) (args : JSValList)
    (sp : SuggestedParams) : Except String (List TransactionWithSigner) :=
  match collectMethodArgs env dvw core.app.common args sp with
  | .error e => .error e
  | .ok methodArgs => assembleMethodCall env dvw core sp methodArgs

/-- A pending intent on the composer's backing list (`Txn`, composer.ts
lines 417-430), restricted to the variants the verified claims exercise:
payments stand in for all simple typed builders (the asset and key-reg
builders differ only in their wire constructor), plus app calls, ABI method
calls, already-signed transactions and pre-built sub-groups. -/
inductive Txn where
  | pay (p : CommonTransactionParams) (receiver : String) (amount : Nat)
      (closeRemainderTo : Option String)
  | appCall (p : AppParams)
  | methodCall (core : MethodCallCore) (args : JSValList)
  | txnWithSigner (t : TransactionWithSigner)
  | atc (group : List TransactionWithSigner)

/-- States of `algosdk.AtomicTransactionComposerStatus` the composer
distinguishes. -/
inductive AtcStatus where
  | building
  | built
deriving Repr, DecidableEq

/-- The `algosdk.AtomicTransactionComposer` backing the group, at its
interface boundary: the accumulated transactions and the build status. -/
structure AtcState where
  txns : List TransactionWithSigner := []
  status : AtcStatus := .building
deriving Repr, DecidableEq

/-- Deterministic stand-in for the SHA-512/256 group hash algosdk computes
over all member transactions: any fixed function of the member list models
the linking value at the interface boundary. -/
def computeGroupId (l : List Transaction) : Nat :=
  l.foldl (fun a t => a * 1000003 + t.fee + 3 * t.firstRound + 5 * t.lastRound) 7

/-- `AtomicTransactionComposer.addTransaction`: only legal while building,
and refused once the group already holds 16 members. -/
def atcAddTransaction (a : AtcState) (t : TransactionWithSigner) : Except String AtcState :=
  if a.status ≠ .building then
    .error "The composer is no longer in the BUILDING state"
  else if a.txns.length == 16 then
    .error "Adding an additional transaction exceeds the maximum atomic group size"
  else
    .ok { a with txns := a.txns ++ [t] }

/-- `AtomicTransactionComposer.buildGroup`: while building, a non-empty
member list is linked (group ids assigned when there is more than one
member) and the status moves to built; once built, the cached list is
returned unchanged. -/
def atcBuildGroup (a : AtcState) : Except String (AtcState × List TransactionWithSigner) :=
  match a.status with
  | .built => .ok (a, a.txns)
  | .building =>
    if a.txns.length == 0 then
      .error "Cannot build a group with zero transactions"
    else
      let withGid :=
        if a.txns.length > 1 then
          let gid := computeGroupId (a.txns.map (fun t => t.txn))
          a.txns.map (fun t => { t with txn := { t.txn with group := some gid } })
        else a.txns
      .ok ({ txns := withGid, status := .built }, withGid)

/-- `AlgokitComposer` state: the backing atomic-transaction composer, the
pending-intent list and the default validity window. -/
structure ComposerState where
  atc : AtcState := {}
  txns : List Txn := []
  defaultValidityWindow : Nat := 10

/-- The constructor (composer.ts lines 488-495):
`defaultValidityWindow = params.defaultValidityWindow ?? 10`, with no
network-dependent adjustment. -/
def mkComposer (defaultValidityWindow : Option Nat) (txns : List Txn) : ComposerState :=
  { atc := {}
    txns := txns
    defaultValidityWindow := defaultValidityWindow.getD 10 }

/-- `buildTxn` (composer.ts lines 1010-1072) on the embedded intent
variants: pass-through for signed transactions, group-id scrubbing for
pre-built sub-groups (`buildAtc`), recursive resolution for method calls,
and typed builder plus signer resolution otherwise. -/
def buildTxn (env : Env) (dvw : Nat) (t : Txn) (sp : SuggestedParams) :
    Except String (List TransactionWithSigner) :=
  match t with
  | .txnWithSigner tws => .ok [tws]
  | .atc group => .ok (group.map stripGroup)
  | .methodCall core args => buildMethodCall env dvw core args sp
  | .pay p receiver amount closeRemainderTo =>
    let signer := resolveSigner env p
    match commonTxnBuildStep env dvw p (makePaymentTxn p receiver amount closeRemainderTo sp) sp with
    | .error e => .error e
    | .ok txn => .ok [TransactionWithSigner.mk txn signer]
  | .appCall p =>
    let signer := resolveSigner env p.common
    match buildAppCall env dvw p sp with
    | .error e => .error e
    | .ok txn => .ok [TransactionWithSigner.mk txn signer]

/-- Resolution of the whole pending list in declaration order (the loop at
composer.ts lines 1086-1088). -/
def buildAll (env : Env) (dvw : Nat) (ts : List Txn) (sp : SuggestedParams) :
    Except String (List TransactionWithSigner) :=
  match ts with
  | [] => .ok []
  | t :: rest =>
    match buildTxn env dvw t sp with
    | .error e => .error e
    | .ok l =>
      match buildAll env dvw rest sp with
      | .error e => .error e
      | .ok r => .ok (l ++ r)

/-- The `forEach` at lines 1090-1092: transactions are added to the backing
composer one at a time, so a failing add leaves the earlier adds behind. -/
def addAll (a : AtcState) : List TransactionWithSigner → AtcState × Option String
  | [] => (a, none)
  | t :: rest =>
    match atcAddTransaction a t with
    | .error e => (a, some e)
    | .ok a2 => addAll a2 rest

/-- `build` (composer.ts lines 1080-1105): while the backing composer is
building, fetch network parameters, resolve every pending intent in order,
add the results one by one, and return `atc.buildGroup()`; once built, the
same return expression yields the cached snapshot unchanged.  The result
pairs the (possibly mutated) composer state with the outcome. -/
def build (env : Env) (s : ComposerState) :
    ComposerState × Except String (List TransactionWithSigner) :=
  if s.atc.status = .building then
    match env.getSuggestedParams with
    | .error e => (s, .error e)
    | .ok sp =>
      match buildAll env s.defaultValidityWindow s.txns sp with
      | .error e => (s, .error e)
      | .ok l =>
        match addAll s.atc l with
        | (a2, some e) => ({ s with atc := a2 }, .error e)
        | (a2, none) =>
          match atcBuildGroup a2 with
          | .error e => ({ s with atc := a2 }, .error e)
          | .ok (a3, g) => ({ s with atc := a3 }, .ok g)
  else
    match atcBuildGroup s.atc with
    | .error e => (s, .error e)
    | .ok (a2, g) => ({ s with atc := a2 }, .ok g)

/-- `rebuild` (composer.ts lines 1112-1115): discard the backing composer
and replay the original pending-intent list through `build`. -/
def rebuild (env : Env) (s : ComposerState) :
    ComposerState × Except String (List TransactionWithSigner) :=
  build env { s with atc := {} }

/-- Network parameters used by the concrete evaluations below; the genesis
id names a LocalNet-style development network. -/
def testParams : SuggestedParams :=
  { fee := 50, firstRound := 1000, lastRound := 2000, genesisID := "sandnet-v1" }

/-- Concrete collaborator environment for evaluating the embedding. -/
def testEnv : Env :=
  { estimateSize := fun _ => 10
    compile := fun s => [s.length]
    getSigner := fun _ => 7
    getSuggestedParams := .ok testParams
    decodeAddress := fun _ => [0] }

/-- Environment whose network-parameter source fails. -/
def failEnv : Env :=
  { testEnv with getSuggestedParams := .error "network unreachable" }

/-- Environment reporting a later first-valid round than `testEnv`. -/
def altEnv : Env :=
  { testEnv with getSuggestedParams := .ok { testParams with firstRound := 1500 } }

/-- Modelled from the spec (§4.1/§6): the network identifiers of the known
development/test networks the spec's larger default validity window applies
to (LocalNet-style genesis ids). -/
def isKnownDevNetwork (genesisID : String) : Bool :=
  genesisID == "devnet-v1" || genesisID == "sandnet-v1" || genesisID == "dockernet-v1"

/-- Modelled from the spec (§4.1), for comparison with the code: the
validity window is the intent's own override, else the configured
composer-wide default, else 1000 rounds on a known development/test network
and 10 rounds otherwise. -/
def specValidityWindow (configuredDefault intentWindow : Option Nat) (genesisID : String) : Nat :=
  match intentWindow with
  | some w => w
  | none =>
    match configuredDefault with
    | some d => d
    | none => if isKnownDevNetwork genesisID then 1000 else 10

/-- Common parameters with no optional field set. -/
def samplePay : CommonTransactionParams := { sender := "alice" }

/-- Payment skeleton for `samplePay` under `testParams`. -/
def samplePayTxn : Transaction := makePaymentTxn samplePay "bob" 5 none testParams

/-- `samplePayTxn` after the common build step under `testEnv` (estimated
size 10, fee-per-byte 50, so the computed fee is 500). -/
def samplePayBuilt : Transaction :=
  { sender := "alice"
    body := .pay { receiver := "bob", amount := 5 }
    fee := 500
    flatFee := true
    firstRound := 1000
    lastRound := 1010
    genesisID := "sandnet-v1" }

/-- A composer holding one payment intent. -/
def sComposerPay : ComposerState := mkComposer none [Txn.pay samplePay "bob" 5 none]

/-- Common parameters with both a static and an extra fee. -/
def bothFeeParams : CommonTransactionParams :=
  { sender := "alice", staticFee := some ⟨1000⟩, extraFee := some ⟨500⟩ }

/-- A composer holding one intent that sets both fee fields. -/
def sBothFee : ComposerState := mkComposer none [Txn.pay bothFeeParams "bob" 1 none]

/-- Common parameters with a fee ceiling of 100 microAlgos. -/
def maxFeeParams : CommonTransactionParams := { sender := "alice", maxFee := some ⟨100⟩ }

/-- An already-signed transaction intent payload. -/
def sampleTws : TransactionWithSigner := ⟨samplePayTxn, 7⟩

/-- A composer holding seventeen already-signed transaction intents — one
more than the group-size ceiling. -/
def sOverflow : ComposerState :=
  mkComposer none (List.replicate 17 (Txn.txnWithSigner sampleTws))

/-- Inner method-call intent of the nested scenario (`txnArg`-style). -/
def innerCore : MethodCallCore :=
  { app := { common := { sender := "alice" }, appId := some 5 }, method := "txnArg" }

/-- Outer method-call intent of the nested scenario (`nestedTxnArg`-style). -/
def outerCore : MethodCallCore :=
  { app := { common := { sender := "alice" }, appId := some 5 }, method := "nestedTxnArg" }

/-- The innermost bare payment of the nested scenario. -/
def bareTxn : Transaction := makePaymentTxn samplePay "alice" 0 none testParams

/-- Argument list of the outer call: a single nested method call whose
single argument is the bare payment. -/
def scenArgs : JSValList :=
  .cons (.jsMethodCall innerCore (.cons (.jsTxn bareTxn) .nil)) .nil

/-- Create-shaped app params (no `appId` key) with compiled programs; the
supplied clear program deliberately differs from the approval program. -/
def cx8 : AppParams :=
  { common := { sender := "alice" }
    onComplete := some 0
    approvalProgram := some (.compiled [1])
    clearProgram := some (.compiled [9]) }

/-- Create-shaped app params missing both programs. -/
def cx8NoProg : AppParams := { common := { sender := "alice" }, onComplete := some 0 }

/-- Method-call intent creating an application (appId key present, value 0)
with compiled programs; the supplied clear program differs from the
approval program. -/
def mcCreateCore : MethodCallCore :=
  { app := { common := { sender := "alice" }
             appId := some 0
             onComplete := some 0
             approvalProgram := some (.compiled [1])
             clearProgram := some (.compiled [9]) }
    method := "createApplication" }

/-- Selector for intents that set both the static and the extra fee (the
mutually-exclusive fee policy of §3). -/
def txnHasBothFees : Txn → Bool
  | .pay p _ _ _ => p.staticFee.isSome && p.extraFee.isSome
  | .appCall p => p.common.staticFee.isSome && p.common.extraFee.isSome
  | .methodCall core _ => core.app.common.staticFee.isSome && core.app.common.extraFee.isSome
  | .txnWithSigner _ => false
  | .atc _ => false

/-- Selector for intents whose builder reaches the common build step's fee
checks: payments always do; app calls and method calls do unless they fail
the earlier app-creation program validation, and method calls additionally
need their argument loop to succeed first.  Signed transactions and
pre-built groups never reach it. -/
def reachesCommonBuildStep (env : Env) (dvw : Nat) (t : Txn) (sp : SuggestedParams) : Bool :=
  match t with
  | .pay _ _ _ _ => true
  | .appCall p =>
    !(p.appId.getD 0 == 0 &&
      ((resolveApprovalProgram env p).isNone || (resolveClearProgram env p).isNone))
  | .methodCall core args =>
    (collectMethodArgs env dvw core.app.common args sp).isOk &&
    !(core.app.appId.getD 0 == 0 &&
      ((resolveApprovalProgram env core.app).isNone || (resolveClearProgram env core.app).isNone))
  | .txnWithSigner _ => false
  | .atc _ => false

end Composer

deriving instance DecidableEq for Except

namespace Composer

/-- Characterization of a successful common build step: the result is the
field-mutated skeleton carrying the computed fee and the flat-fee flag. -/
theorem commonTxnBuildStep_ok_eq {env : Env} {dvw : Nat} {params : CommonTransactionParams}
    {txn : Transaction} {sp : SuggestedParams} {t : Transaction}
    (h : commonTxnBuildStep env dvw params txn sp = Except.ok t) :
    t = match params.staticFee with
      | some f => { applyCommonFields dvw params txn with fee := f.microAlgos, flatFee := true }
      | none =>
        { applyCommonFields dvw params txn with
          fee := jsOr (env.estimateSize (applyCommonFields dvw params txn) * sp.fee)
              ALGORAND_MIN_TX_FEE
            + (match params.extraFee with | some e => e.microAlgos | none => 0)
          flatFee := true } := by
  simp only [commonTxnBuildStep] at h
  split at h
  · exact absurd h (by simp)
  · split at h
    · split at h
      · exact absurd h (by simp)
      · injection h with h
        subst h
        cases params.staticFee <;> rfl
    · injection h with h
      subst h
      cases params.staticFee <;> rfl

/-- A successful common build step always sets the flat-fee flag. -/
theorem commonTxnBuildStep_ok_flatFee {env : Env} {dvw : Nat}
    {params : CommonTransactionParams} {txn : Transaction} {sp : SuggestedParams}
    {t : Transaction} (h : commonTxnBuildStep env dvw params txn sp = Except.ok t) :
    t.flatFee = true := by
  have he := commonTxnBuildStep_ok_eq h
  subst he
  cases params.staticFee <;> rfl

/-- `setLeaseField` does not touch the payload. -/
theorem setLeaseField_body (p : CommonTransactionParams) (t : Transaction) :
    (setLeaseField p t).body = t.body := by
  unfold setLeaseField; split <;> rfl

/-- `setRekeyField` does not touch the payload. -/
theorem setRekeyField_body (p : CommonTransactionParams) (t : Transaction) :
    (setRekeyField p t).body = t.body := by
  unfold setRekeyField
  split
  · split <;> rfl
  · rfl

/-- `setNoteField` does not touch the payload. -/
theorem setNoteField_body (p : CommonTransactionParams) (t : Transaction) :
    (setNoteField p t).body = t.body := by
  unfold setNoteField; split <;> rfl

/-- `setFirstValidField` does not touch the payload. -/
theorem setFirstValidField_body (p : CommonTransactionParams) (t : Transaction) :
    (setFirstValidField p t).body = t.body := by
  unfold setFirstValidField
  split
  · split <;> rfl
  · rfl

/-- `setLastValidField` does not touch the payload. -/
theorem setLastValidField_body (dvw : Nat) (p : CommonTransactionParams) (t : Transaction) :
    (setLastValidField dvw p t).body = t.body := by
  unfold setLastValidField
  split
  · split <;> rfl
  · rfl

/-- `setLastValidField` does not touch the first-valid round. -/
theorem setLastValidField_firstRound (dvw : Nat) (p : CommonTransactionParams)
    (t : Transaction) : (setLastValidField dvw p t).firstRound = t.firstRound := by
  unfold setLastValidField
  split
  · split <;> rfl
  · rfl

/-- With no explicit last-valid round, `setLastValidField` sets
`lastRound = firstRound + (validityWindow ?? default)`. -/
theorem setLastValidField_lastRound_of_none (dvw : Nat) (p : CommonTransactionParams)
    (t : Transaction) (hp : p.lastValidRound = none) :
    (setLastValidField dvw p t).lastRound = t.firstRound + p.validityWindow.getD dvw := by
  unfold setLastValidField
  rw [hp]

/-- A truthy explicit last-valid round is copied verbatim. -/
theorem setLastValidField_lastRound_of_some (dvw : Nat) (p : CommonTransactionParams)
    (t : Transaction) (v : Nat) (hp : p.lastValidRound = some v) (hv : v ≠ 0) :
    (setLastValidField dvw p t).lastRound = v := by
  unfold setLastValidField
  rw [hp]
  simp [hv]

/-- The field-mutation prefix leaves the payload untouched. -/
theorem applyCommonFields_body (dvw : Nat) (p : CommonTransactionParams) (t : Transaction) :
    (applyCommonFields dvw p t).body = t.body := by
  unfold applyCommonFields
  rw [setLastValidField_body, setFirstValidField_body, setNoteField_body, setRekeyField_body,
    setLeaseField_body]

/-- With no explicit last-valid round, the mutated skeleton satisfies
`lastRound = firstRound + (validityWindow ?? default)`. -/
theorem applyCommonFields_lastRound_of_none (dvw : Nat) (p : CommonTransactionParams)
    (t : Transaction) (hp : p.lastValidRound = none) :
    (applyCommonFields dvw p t).lastRound =
      (applyCommonFields dvw p t).firstRound + p.validityWindow.getD dvw := by
  unfold applyCommonFields
  rw [setLastValidField_lastRound_of_none _ _ _ hp, setLastValidField_firstRound]

/-- A truthy explicit last-valid round survives the field-mutation prefix. -/
theorem applyCommonFields_lastRound_of_some (dvw : Nat) (p : CommonTransactionParams)
    (t : Transaction) (v : Nat) (hp : p.lastValidRound = some v) (hv : v ≠ 0) :
    (applyCommonFields dvw p t).lastRound = v := by
  unfold applyCommonFields
  rw [setLastValidField_lastRound_of_some _ _ _ _ hp hv]

/-- A successful common build step leaves the skeleton's kind-specific
payload untouched. -/
theorem commonTxnBuildStep_ok_body {env : Env} {dvw : Nat}
    {params : CommonTransactionParams} {txn : Transaction} {sp : SuggestedParams}
    {t : Transaction} (h : commonTxnBuildStep env dvw params txn sp = Except.ok t) :
    t.body = txn.body := by
  have he := commonTxnBuildStep_ok_eq h
  subst he
  cases params.staticFee <;> simpa using applyCommonFields_body dvw params txn

/-- A successful common build step does not change the rounds chosen by the
field-mutation prefix. -/
theorem commonTxnBuildStep_ok_rounds {env : Env} {dvw : Nat}
    {params : CommonTransactionParams} {txn : Transaction} {sp : SuggestedParams}
    {t : Transaction} (h : commonTxnBuildStep env dvw params txn sp = Except.ok t) :
    t.lastRound = (applyCommonFields dvw params txn).lastRound ∧
    t.firstRound = (applyCommonFields dvw params txn).firstRound := by
  have he := commonTxnBuildStep_ok_eq h
  subst he
  cases params.staticFee <;> exact ⟨rfl, rfl⟩

/-- C2: classification of method-call arguments is purely structural and is
claimed to accept byte sequences as ABI values; evaluating the code at a
`Uint8Array` argument shows `isAbiValue` rejects it (JS `typeof` yields
`"object"`, never `"Uint8Array"`), while the spec's classifier accepts it,
and the resolver then falls through to the transaction path and crashes
while awaiting the byte array and reading `.from` of the result. -/
theorem c2_uint8array_misclassified :
    isAbiValue (.jsBytes [1, 2, 3]) = false ∧
    specIsAbiValue (.jsBytes [1, 2, 3]) = true ∧
    typeofJS (.jsBytes [1, 2, 3]) = "object" ∧
    collectOneArg testEnv 10 samplePay (.jsBytes [1, 2, 3]) testParams =
      .error "TypeError: Cannot read properties of undefined (reading publicKey)" :=
  ⟨rfl, rfl, rfl, rfl⟩

/-- C4 (counterexample): with estimated size 10 and fee-per-byte 50 the
computed fee is 500 and is used as-is — it is not floored at the network
minimum fee of 1000, because the source uses JS `||` rather than a
maximum. -/
theorem c4_counterexample :
    (commonTxnBuildStep testEnv 10 samplePay samplePayTxn testParams).map Transaction.fee =
      .ok 500 ∧
    (500 : Nat) ≠
      max (testEnv.estimateSize (applyCommonFields 10 samplePay samplePayTxn) * testParams.fee)
        ALGORAND_MIN_TX_FEE := by
  exact ⟨rfl, by decide⟩

/-- C4 (amended): a static fee is used verbatim; otherwise the fee is
`estimatedSize * feePerByte`, with the network minimum fee substituted only
when that product is zero (JS `||`), plus any extra fee; the flat-fee flag
is always set. -/
theorem c4_fee_formula (env : Env) (dvw : Nat) (params : CommonTransactionParams)
    (txn : Transaction) (sp : SuggestedParams) (t : Transaction)
    (h : commonTxnBuildStep env dvw params txn sp = Except.ok t) :
    t.flatFee = true ∧
    (∀ f, params.staticFee = some f → t.fee = f.microAlgos) ∧
    (params.staticFee = none →
      t.fee = jsOr (env.estimateSize (applyCommonFields dvw params txn) * sp.fee)
          ALGORAND_MIN_TX_FEE
        + (params.extraFee.map AlgoAmount.microAlgos).getD 0) := by
  have he := commonTxnBuildStep_ok_eq h
  refine ⟨commonTxnBuildStep_ok_flatFee h, ?_, ?_⟩
  · intro f hf
    rw [hf] at he
    subst he
    rfl
  · intro hf
    rw [hf] at he
    subst he
    cases params.extraFee <;> rfl

/-- C4 (witness): the amended fee formula applied to the concrete payment
built under `testEnv`. -/
theorem c4_fee_formula_witness :
    samplePayBuilt.flatFee = true ∧
    samplePayBuilt.fee =
      jsOr (testEnv.estimateSize (applyCommonFields 10 samplePay samplePayTxn) * testParams.fee)
          ALGORAND_MIN_TX_FEE
        + (samplePay.extraFee.map AlgoAmount.microAlgos).getD 0 := by
  have h := c4_fee_formula testEnv 10 samplePay samplePayTxn testParams samplePayBuilt (by decide)
  exact ⟨h.1, h.2.2 rfl⟩

/-- C7 (counterexample): against a known development network
(`sandnet-v1`), with no configured default and no per-intent override, the
built transaction's validity window is 10 rounds, not the 1000-round
development-network default the claim describes. -/
theorem c7_counterexample :
    (build testEnv sComposerPay).2.map (fun l => l.map fun x => x.txn.lastRound) = .ok [1010] ∧
    isKnownDevNetwork testParams.genesisID = true ∧
    sComposerPay.defaultValidityWindow = 10 ∧
    (1010 : Nat) ≠ testParams.firstRound + specValidityWindow none none testParams.genesisID := by
  exact ⟨rfl, rfl, rfl, by decide⟩

/-- C7 (amended): with no explicit last-valid round the last-valid round is
`firstValid + validityWindow`, where the window is the intent's override or
else the composer-wide default — which the constructor sets to 10 when not
configured — irrespective of which network the composer talks to; a nonzero
explicit last-valid round always wins. -/
theorem c7_validity_window (env : Env) (dvw : Nat) (params : CommonTransactionParams)
    (txn : Transaction) (sp : SuggestedParams) (t : Transaction)
    (h : commonTxnBuildStep env dvw params txn sp = Except.ok t) :
    ((params.lastValidRound = none →
        t.lastRound = t.firstRound + params.validityWindow.getD dvw) ∧
      (∀ v, params.lastValidRound = some v → v ≠ 0 → t.lastRound = v)) ∧
    (∀ (d : Option Nat) (ts : List Txn), (mkComposer d ts).defaultValidityWindow = d.getD 10) := by
  obtain ⟨hlast, hfirst⟩ := commonTxnBuildStep_ok_rounds h
  refine ⟨⟨?_, ?_⟩, fun d ts => rfl⟩
  · intro hp
    rw [hlast, hfirst, applyCommonFields_lastRound_of_none dvw params txn hp]
  · intro v hp hv
    rw [hlast, applyCommonFields_lastRound_of_some dvw params txn v hp hv]

/-- C7 (witness): the amended validity-window rule applied to the concrete
payment built under `testEnv` (window 10, rounds 1000-1010). -/
theorem c7_validity_window_witness :
    samplePayBuilt.lastRound = samplePayBuilt.firstRound + samplePay.validityWindow.getD 10 ∧
    (mkComposer none [] : ComposerState).defaultValidityWindow = (none : Option Nat).getD 10 := by
  have h := c7_validity_window testEnv 10 samplePay samplePayTxn testParams samplePayBuilt
    (by decide)
  exact ⟨h.1.1 rfl, h.2 none []⟩

/-- C9: whenever the fee computed by the common build step exceeds the
intent's fee ceiling, the step fails with the fee-ceiling error, whose
message contains both the computed fee and the ceiling. -/
theorem c9_fee_ceiling (env : Env) (dvw : Nat) (params : CommonTransactionParams)
    (txn : Transaction) (sp : SuggestedParams) (mf : AlgoAmount) (u : Transaction)
    (hmf : params.maxFee = some mf)
    (hu : commonTxnBuildStep env dvw { params with maxFee := none } txn sp = Except.ok u)
    (hlt : mf.microAlgos < u.fee) :
    commonTxnBuildStep env dvw params txn sp = Except.error (feeTooHighMessage u.fee mf) ∧
    ∃ a b, feeTooHighMessage u.fee mf = a ++ toString u.fee ++ b ++ algoAmountText mf := by
  have he := commonTxnBuildStep_ok_eq hu
  have hb : (params.staticFee.isSome && params.extraFee.isSome) = false := by
    by_contra hcon
    have htrue : (params.staticFee.isSome && params.extraFee.isSome) = true := by
      revert hcon
      cases params.staticFee.isSome && params.extraFee.isSome <;> simp
    simp only [commonTxnBuildStep] at hu
    rw [if_pos htrue] at hu
    exact absurd hu (by simp)
  refine ⟨?_, "Transaction fee ", " is greater than maxFee ", rfl⟩
  simp only [commonTxnBuildStep]
  rw [if_neg (by simp [hb]), hmf]
  rcases hs : params.staticFee with _ | f
  · rw [hs] at he
    subst he
    simp only []
    rw [if_pos (by exact hlt)]
    rfl
  · rw [hs] at he
    subst he
    simp only []
    rw [if_pos (by exact hlt)]

/-- C9 (witness): a payment with computed fee 500 against a 100 microAlgo
ceiling fails with a message carrying both numbers. -/
theorem c9_fee_ceiling_witness :
    commonTxnBuildStep testEnv 10 maxFeeParams samplePayTxn testParams =
      Except.error "Transaction fee 500 is greater than maxFee 100 µALGO" ∧
    ∃ a b, "Transaction fee 500 is greater than maxFee 100 µALGO" =
      a ++ toString (500 : Nat) ++ b ++ algoAmountText ⟨100⟩ := by
  have h := c9_fee_ceiling testEnv 10 maxFeeParams samplePayTxn testParams ⟨100⟩ samplePayBuilt
    rfl (by decide) (by decide)
  refine ⟨h.1.trans (by decide), ?_⟩
  obtain ⟨a, b, hab⟩ := h.2
  exact ⟨a, b, (show ("Transaction fee 500 is greater than maxFee 100 µALGO" : String) =
    feeTooHighMessage samplePayBuilt.fee ⟨100⟩ by decide).trans hab⟩

/-- A successful `buildAppCall` always returns the common-built *generic
call* transaction constructed at line 987. -/
theorem buildAppCall_ok_inversion {env : Env} {dvw : Nat} {p : AppParams}
    {sp : SuggestedParams} {t : Transaction} (h : buildAppCall env dvw p sp = Except.ok t) :
    commonTxnBuildStep env dvw p.common
      (makeApplicationCallTxn env p (p.appId.getD 0) (resolveApprovalProgram env p)
        (resolveClearProgram env p) sp) sp = Except.ok t := by
  simp only [buildAppCall] at h
  split at h
  · exact absurd h (by simp)
  · exact h

/-- `buildAppCall` on a creating call (app id 0) with a missing program
fails with the construction error. -/
theorem buildAppCall_err_of_missing_program {env : Env} {dvw : Nat} {p : AppParams}
    {sp : SuggestedParams} (h0 : p.appId.getD 0 = 0)
    (hm : resolveApprovalProgram env p = none ∨ resolveClearProgram env p = none) :
    buildAppCall env dvw p sp =
      Except.error "approvalProgram and clearProgram are required for application creation" := by
  simp only [buildAppCall]
  rw [if_pos]
  rw [h0]
  rcases hm with hm | hm <;> simp [hm]

/-- A successful assembly step returns the transaction-typed method
arguments followed by the common-built method-call transaction, with group
ids scrubbed. -/
theorem assembleMethodCall_ok_inversion {env : Env} {dvw : Nat} {core : MethodCallCore}
    {sp : SuggestedParams} {m : List ABIArgument} {l : List TransactionWithSigner}
    (h : assembleMethodCall env dvw core sp m = Except.ok l) :
    ∃ bt, commonTxnBuildStep env dvw core.app.common
        (makeMethodCallTxn env core (core.app.appId.getD 0) (resolveApprovalProgram env core.app)
          (resolveClearProgram env core.app) sp) sp = Except.ok bt ∧
      l = (extractTxnArgs m ++
        [TransactionWithSigner.mk bt (resolveSigner env core.app.common)]).map stripGroup := by
  simp only [assembleMethodCall] at h
  split at h
  · exact absurd h (by simp)
  · split at h
    · exact absurd h (by simp)
    · rename_i bt hbt
      injection h with h
      exact ⟨bt, hbt, h.symm⟩

/-- A successful `buildMethodCall` factors through the argument loop and
the assembly step. -/
theorem buildMethodCall_ok_inversion {env : Env} {dvw : Nat} {core : MethodCallCore}
    {args : JSValList} {sp : SuggestedParams} {l : List TransactionWithSigner}
    (h : buildMethodCall env dvw core args sp = Except.ok l) :
    ∃ m, collectMethodArgs env dvw core.app.common args sp = Except.ok m ∧
      assembleMethodCall env dvw core sp m = Except.ok l := by
  simp only [buildMethodCall] at h
  split at h
  · exact absurd h (by simp)
  · rename_i m hm
    exact ⟨m, hm, h⟩

/-- C10: whenever a `clearProgram` is supplied, both builders derive the
attached clear-program bytes from the `approvalProgram` field, so the built
transaction's clear program equals its approval program. -/
theorem c10_clear_program_mirror :
    (∀ (env : Env) (p : AppParams), p.clearProgram.isSome = true →
      resolveClearProgram env p = resolveApprovalProgram env p) ∧
    (∀ (env : Env) (dvw : Nat) (p : AppParams) (sp : SuggestedParams) (t : Transaction)
      (f : AppTxnFields), p.clearProgram.isSome = true →
      buildAppCall env dvw p sp = Except.ok t → t.body = TxnBody.appl f →
      f.clearProgram = f.approvalProgram) ∧
    (∀ (env : Env) (dvw : Nat) (core : MethodCallCore) (args : JSValList)
      (sp : SuggestedParams) (l : List TransactionWithSigner),
      core.app.clearProgram.isSome = true →
      buildMethodCall env dvw core args sp = Except.ok l →
      ∃ tws f, l.getLast? = some tws ∧ tws.txn.body = TxnBody.appl f ∧
        f.clearProgram = f.approvalProgram) := by
  have base : ∀ (env : Env) (p : AppParams), p.clearProgram.isSome = true →
      resolveClearProgram env p = resolveApprovalProgram env p := by
    intro env p h
    rcases hc : p.clearProgram with _ | c
    · rw [hc] at h; exact absurd h (by simp)
    · rcases ha : p.approvalProgram with _ | pr
      · simp [resolveClearProgram, resolveApprovalProgram, hc, ha]
      · cases pr <;> simp [resolveClearProgram, resolveApprovalProgram, hc, ha]
  refine ⟨base, ?_, ?_⟩
  · intro env dvw p sp t f hc hb hf
    have hcall := buildAppCall_ok_inversion hb
    have hbody := commonTxnBuildStep_ok_body hcall
    rw [hf] at hbody
    have : TxnBody.appl f =
        TxnBody.appl { appCallSdkFields env p (resolveApprovalProgram env p)
          (resolveClearProgram env p) with appIndex := p.appId.getD 0 } := by
      exact hbody
    injection this with hfe
    rw [hfe]
    simpa [appCallSdkFields] using base env p hc
  · intro env dvw core args sp l hc hb
    obtain ⟨m, _, hasm⟩ := buildMethodCall_ok_inversion hb
    obtain ⟨bt, hbt, hl⟩ := assembleMethodCall_ok_inversion hasm
    refine ⟨stripGroup (TransactionWithSigner.mk bt (resolveSigner env core.app.common)),
      { appIndex := core.app.appId.getD 0
        onComplete := core.app.onComplete.getD UpdateApplicationOC
        approvalProgram := resolveApprovalProgram env core.app
        clearProgram := resolveClearProgram env core.app
        numLocalInts := methodCallSchemaField (core.app.appId.getD 0)
          (core.app.schema.map fun s => s.localInts)
        numLocalByteSlices := methodCallSchemaField (core.app.appId.getD 0)
          (core.app.schema.map fun s => s.localByteSlices)
        numGlobalInts := methodCallSchemaField (core.app.appId.getD 0)
          (core.app.schema.map fun s => s.globalInts)
        numGlobalByteSlices := methodCallSchemaField (core.app.appId.getD 0)
          (core.app.schema.map fun s => s.globalByteSlices)
        extraPages := core.app.extraPages
        appAccounts := core.app.accountReferences
        appForeignApps := core.app.appReferences
        appForeignAssets := core.app.assetReferences
        boxes := core.app.boxReferences.map fun bl => bl.map (getBoxReference env) }, ?_, ?_, ?_⟩
    · rw [hl]
      simp [List.getLast?_append_cons]
    · have hbody := commonTxnBuildStep_ok_body hbt
      simpa [stripGroup, makeMethodCallTxn] using hbody
    · simpa using base env core.app hc

/-- C10 (witness): the clear-program mirroring evaluated on the concrete
create-shaped intent `cx8`, whose supplied clear program (`[9]`) differs
from its approval program (`[1]`), and on a creating method call. -/
theorem c10_clear_program_mirror_witness :
    resolveClearProgram testEnv cx8 = resolveApprovalProgram testEnv cx8 ∧
    (∃ tws f,
      ((buildMethodCall testEnv 10 mcCreateCore .nil testParams).toOption.getD []).getLast? =
        some tws ∧
      tws.txn.body = TxnBody.appl f ∧ f.clearProgram = f.approvalProgram) := by
  constructor
  · exact c10_clear_program_mirror.1 testEnv cx8 rfl
  · obtain ⟨tws, f, h1, h2, h3⟩ := c10_clear_program_mirror.2.2 testEnv 10 mcCreateCore .nil
      testParams ((buildMethodCall testEnv 10 mcCreateCore .nil testParams).toOption.getD [])
      rfl (by decide)
    exact ⟨tws, f, h1, h2, h3⟩

/-- C8 (counterexample): for a create-shaped intent (app id 0, programs
present, no schema), `buildAppCall` succeeds, the common-built *creation*
transaction also exists, and the transaction `buildAppCall` retains differs
from it — the unconditional assignment at line 987 keeps the generic-call
construction (schema numbers left unset), not the creation construction
(schema numbers defaulted to 0). -/
theorem c8_counterexample :
    (buildAppCall testEnv 10 cx8 testParams).isOk = true ∧
    (commonTxnBuildStep testEnv 10 cx8.common
      (makeApplicationCreateTxn testEnv cx8 (resolveApprovalProgram testEnv cx8)
        (resolveClearProgram testEnv cx8) testParams) testParams).isOk = true ∧
    buildAppCall testEnv 10 cx8 testParams ≠
      commonTxnBuildStep testEnv 10 cx8.common
        (makeApplicationCreateTxn testEnv cx8 (resolveApprovalProgram testEnv cx8)
          (resolveClearProgram testEnv cx8) testParams) testParams := by
  exact ⟨rfl, rfl, by decide⟩

/-- C8 (amended): when no app id is supplied (id 0) the builder validates
that both programs are present — failing with the construction error
otherwise — and constructs a creation transaction, but the transaction
retained for the group is always the one from the unconditional generic
call construction (carrying the given on-complete action, programs,
references and schema, with app index 0 for a creating call). -/
theorem c8_app_call_retained (env : Env) (dvw : Nat) (p : AppParams) (sp : SuggestedParams) :
    (p.appId.getD 0 = 0 →
      (resolveApprovalProgram env p = none ∨ resolveClearProgram env p = none) →
      buildAppCall env dvw p sp =
        Except.error "approvalProgram and clearProgram are required for application creation") ∧
    (∀ t, buildAppCall env dvw p sp = Except.ok t →
      commonTxnBuildStep env dvw p.common
        (makeApplicationCallTxn env p (p.appId.getD 0) (resolveApprovalProgram env p)
          (resolveClearProgram env p) sp) sp = Except.ok t) :=
  ⟨fun h0 hm => buildAppCall_err_of_missing_program h0 hm,
   fun _ h => buildAppCall_ok_inversion h⟩

/-- C8 (witness): the amended behaviour evaluated on concrete create-shaped
intents — missing programs fail, and the retained transaction is the
common-built generic call transaction. -/
theorem c8_app_call_retained_witness :
    buildAppCall testEnv 10 cx8NoProg testParams =
      Except.error "approvalProgram and clearProgram are required for application creation" ∧
    commonTxnBuildStep testEnv 10 cx8.common
      (makeApplicationCallTxn testEnv cx8 (cx8.appId.getD 0) (resolveApprovalProgram testEnv cx8)
        (resolveClearProgram testEnv cx8) testParams) testParams =
      Except.ok ((buildAppCall testEnv 10 cx8 testParams).toOption.getD samplePayTxn) := by
  constructor
  · exact (c8_app_call_retained testEnv 10 cx8NoProg testParams).1 rfl (Or.inl rfl)
  · exact (c8_app_call_retained testEnv 10 cx8 testParams).2
      ((buildAppCall testEnv 10 cx8 testParams).toOption.getD samplePayTxn) (by decide)

/-- Both fee fields set make the common build step fail with the
configuration error. -/
theorem commonTxnBuildStep_err_of_bothFees {env : Env} {dvw : Nat}
    {params : CommonTransactionParams} {txn : Transaction} {sp : SuggestedParams}
    (h1 : params.staticFee.isSome = true) (h2 : params.extraFee.isSome = true) :
    commonTxnBuildStep env dvw params txn sp =
      Except.error "Cannot set both staticFee and extraFee" := by
  simp only [commonTxnBuildStep]
  rw [if_pos (by simp [h1, h2])]

/-- An intent carrying both fee fields that reaches the common build step's
fee checks fails with exactly the configuration error of line 730. -/
theorem buildTxn_bothFees_config_error (env : Env) (dvw : Nat) (t : Txn) (sp : SuggestedParams)
    (hbf : txnHasBothFees t = true)
    (hreach : reachesCommonBuildStep env dvw t sp = true) :
    buildTxn env dvw t sp = Except.error "Cannot set both staticFee and extraFee" := by
  cases t with
  | pay p r a c =>
    simp only [txnHasBothFees, Bool.and_eq_true] at hbf
    simp only [buildTxn]
    rw [commonTxnBuildStep_err_of_bothFees hbf.1 hbf.2]
  | appCall p =>
    simp only [txnHasBothFees, Bool.and_eq_true] at hbf
    simp only [reachesCommonBuildStep, Bool.not_eq_true'] at hreach
    have hb : buildAppCall env dvw p sp =
        Except.error "Cannot set both staticFee and extraFee" := by
      simp only [buildAppCall]
      rw [if_neg (by simp [hreach])]
      exact commonTxnBuildStep_err_of_bothFees hbf.1 hbf.2
    simp only [buildTxn]
    rw [hb]
  | methodCall core args =>
    simp only [txnHasBothFees, Bool.and_eq_true] at hbf
    simp only [reachesCommonBuildStep, Bool.and_eq_true, Bool.not_eq_true'] at hreach
    obtain ⟨hok, hnot⟩ := hreach
    rcases hcm : collectMethodArgs env dvw core.app.common args sp with e | m
    · rw [hcm] at hok
      exact absurd hok (by simp [Except.isOk, Except.toBool])
    · simp only [buildTxn, buildMethodCall]
      rw [hcm]
      simp only [assembleMethodCall]
      rw [if_neg (by simp [hnot]), commonTxnBuildStep_err_of_bothFees hbf.1 hbf.2]
  | txnWithSigner t => exact absurd hbf (by simp [txnHasBothFees])
  | atc g => exact absurd hbf (by simp [txnHasBothFees])

/-- `buildAll` steps over an intent that resolves. -/
theorem buildAll_cons_ok {env : Env} {dvw : Nat} {sp : SuggestedParams} {hd : Txn}
    {rest : List Txn} {l : List TransactionWithSigner}
    (hh : buildTxn env dvw hd sp = Except.ok l) :
    buildAll env dvw (hd :: rest) sp =
      match buildAll env dvw rest sp with
      | .error e => .error e
      | .ok r => .ok (l ++ r) := by
  simp only [buildAll]
  rw [hh]

/-- When every intent before `t` resolves and `t` itself fails, the whole
declaration-order resolution fails with exactly `t`'s error. -/
theorem buildAll_err_after_ok_prefix (env : Env) (dvw : Nat) (sp : SuggestedParams)
    (t : Txn) (e : String) (he : buildTxn env dvw t sp = Except.error e) :
    ∀ (pre post : List Txn), (∀ x ∈ pre, (buildTxn env dvw x sp).isOk = true) →
    buildAll env dvw (pre ++ t :: post) sp = Except.error e := by
  intro pre
  induction pre with
  | nil =>
    intro post _
    simp only [List.nil_append, buildAll]
    rw [he]
  | cons hd tl ih =>
    intro post hpre
    have hhd := hpre hd (by simp)
    rcases hh : buildTxn env dvw hd sp with e2 | l2
    · rw [hh] at hhd
      exact absurd hhd (by simp [Except.isOk, Except.toBool])
    · rw [List.cons_append, buildAll_cons_ok hh, ih post (fun x hx => hpre x (by simp [hx]))]

/-- Unfolding of `build` in the building state once the network parameters
have been fetched. -/
theorem build_building_eq (env : Env) (s : ComposerState) (sp : SuggestedParams)
    (hstat : s.atc.status = .building) (hsp : env.getSuggestedParams = .ok sp) :
    build env s =
      match buildAll env s.defaultValidityWindow s.txns sp with
      | .error e => (s, .error e)
      | .ok l =>
        match addAll s.atc l with
        | (a2, some e) => ({ s with atc := a2 }, .error e)
        | (a2, none) =>
          match atcBuildGroup a2 with
          | .error e => ({ s with atc := a2 }, .error e)
          | .ok (a3, g) => ({ s with atc := a3 }, .ok g) := by
  simp only [build]
  rw [if_pos hstat, hsp]

/-- C6 (amended): an intent with both a static and an extra fee that
`build()` reaches (the preceding intents resolving, and the intent passing
its own earlier validations) makes `build()` fail with exactly the
configuration error `Cannot set both staticFee and extraFee`, before any
transaction is added to the assembled group (the composer state is returned
unchanged) — the network-parameter source, however, has already been
invoked by then. -/
theorem c6_both_fees_fail (env : Env) (s : ComposerState) (sp : SuggestedParams)
    (pre post : List Txn) (t : Txn)
    (hstat : s.atc.status = .building) (hsp : env.getSuggestedParams = .ok sp)
    (hsplit : s.txns = pre ++ t :: post)
    (hbf : txnHasBothFees t = true)
    (hreach : reachesCommonBuildStep env s.defaultValidityWindow t sp = true)
    (hpre : ∀ x ∈ pre, (buildTxn env s.defaultValidityWindow x sp).isOk = true) :
    build env s = (s, Except.error "Cannot set both staticFee and extraFee") := by
  have he := buildTxn_bothFees_config_error env s.defaultValidityWindow t sp hbf hreach
  have hba : buildAll env s.defaultValidityWindow s.txns sp =
      Except.error "Cannot set both staticFee and extraFee" := by
    rw [hsplit]
    exact buildAll_err_after_ok_prefix env s.defaultValidityWindow sp t _ he pre post hpre
  rw [build_building_eq env s sp hstat hsp, hba]

/-- C6 (counterexample): with a failing network-parameter source, `build()`
on a both-fees intent surfaces the network failure, not the configuration
error — the parameter source is contacted before the fee check, contrary to
the claim. -/
theorem c6_counterexample :
    build failEnv sBothFee = (sBothFee, Except.error "network unreachable") ∧
    "network unreachable" ≠ "Cannot set both staticFee and extraFee" :=
  ⟨rfl, by decide⟩

/-- C6 (witness): the amended failure evaluated on the concrete both-fees
composer under a healthy parameter source, surfacing exactly the
configuration error. -/
theorem c6_both_fees_fail_witness :
    build testEnv sBothFee = (sBothFee, Except.error "Cannot set both staticFee and extraFee") :=
  c6_both_fees_fail testEnv sBothFee testParams [] [] (Txn.pay bothFeeParams "bob" 1 none)
    rfl rfl rfl rfl rfl (by intro x hx; exact absurd hx (List.not_mem_nil x))

/-- A successful `buildGroup` call leaves the backing composer in the built
state holding exactly the returned members. -/
theorem atcBuildGroup_ok_post {a a2 : AtcState} {g : List TransactionWithSigner}
    (h : atcBuildGroup a = Except.ok (a2, g)) : a2.status = .built ∧ a2.txns = g := by
  simp only [atcBuildGroup] at h
  split at h
  · injection h with h
    injection h with h1 h2
    subst h1
    subst h2
    rename_i hst
    exact ⟨hst, rfl⟩
  · split at h
    · exact absurd h (by simp)
    · injection h with h
      injection h with h1 h2
      subst h1
      subst h2
      exact ⟨rfl, rfl⟩

/-- A successful `build` leaves the backing composer built, caching exactly
the returned group. -/
theorem build_ok_post {env : Env} {s s1 : ComposerState} {g : List TransactionWithSigner}
    (h : build env s = (s1, Except.ok g)) : s1.atc.status = .built ∧ s1.atc.txns = g := by
  by_cases hstat : s.atc.status = .building
  · rcases hsp : env.getSuggestedParams with e | sp
    · simp only [build] at h
      rw [if_pos hstat, hsp] at h
      injection h with h1 h2
      exact absurd h2 (by simp)
    · rw [build_building_eq env s sp hstat hsp] at h
      split at h
      · injection h with h1 h2
        exact absurd h2 (by simp)
      · split at h
        · injection h with h1 h2
          exact absurd h2 (by simp)
        · split at h
          · injection h with h1 h2
            exact absurd h2 (by simp)
          · rename_i a3 g2 hbg
            injection h with h1 h2
            injection h2 with h2
            rw [← h1, ← h2]
            exact atcBuildGroup_ok_post hbg
  · simp only [build] at h
    rw [if_neg hstat] at h
    split at h
    · injection h with h1 h2
      exact absurd h2 (by simp)
    · rename_i a2 g2 hbg
      injection h with h1 h2
      injection h2 with h2
      rw [← h1, ← h2]
      exact atcBuildGroup_ok_post hbg

/-- Calling `build` on an already-built composer returns the cached
snapshot unchanged. -/
theorem build_of_built (env : Env) (s : ComposerState) (hstat : s.atc.status = .built) :
    build env s = (s, Except.ok s.atc.txns) := by
  have hbg : atcBuildGroup s.atc = Except.ok (s.atc, s.atc.txns) := by
    simp only [atcBuildGroup]
    rw [hstat]
  simp only [build]
  rw [if_neg (by simp [hstat]), hbg]

/-- C5: while the composer is built, `build()` is idempotent — a second
call returns the identical state and group; and `rebuild()` followed by
`build()` can return a different group when the network-parameter source
answers differently (here: a later first-valid round). -/
theorem c5_build_idempotent_rebuild_fresh :
    (∀ (env1 env2 : Env) (s s1 : ComposerState) (g1 : List TransactionWithSigner),
      build env1 s = (s1, Except.ok g1) → build env2 s1 = (s1, Except.ok g1)) ∧
    (∃ (env1 env2 : Env) (s : ComposerState),
      (build env1 s).2.isOk = true ∧
      (rebuild env2 (build env1 s).1).2.isOk = true ∧
      (build env1 s).2 ≠ (rebuild env2 (build env1 s).1).2) := by
  constructor
  · intro env1 env2 s s1 g1 h
    obtain ⟨hst, htx⟩ := build_ok_post h
    rw [build_of_built env2 s1 hst, htx]
  · exact ⟨testEnv, altEnv, sComposerPay, by decide, by decide, by decide⟩

/-- C5 (witness): a second `build` on the concretely built payment composer
returns the same singleton group. -/
theorem c5_build_idempotent_witness :
    build altEnv (build testEnv sComposerPay).1 =
      ((build testEnv sComposerPay).1, Except.ok [TransactionWithSigner.mk samplePayBuilt 7]) := by
  apply c5_build_idempotent_rebuild_fresh.1 testEnv altEnv sComposerPay
  exact Prod.ext rfl (by decide)

/-- `addAll` steps over a successful add. -/
theorem addAll_cons_ok {a a2 : AtcState} {t : TransactionWithSigner}
    {rest : List TransactionWithSigner} (h : atcAddTransaction a t = Except.ok a2) :
    addAll a (t :: rest) = addAll a2 rest := by
  simp only [addAll]
  rw [h]

/-- `addAll` stops at a failing add, leaving the state as it was before
that add. -/
theorem addAll_cons_err {a : AtcState} {t : TransactionWithSigner} {e : String}
    {rest : List TransactionWithSigner} (h : atcAddTransaction a t = Except.error e) :
    addAll a (t :: rest) = (a, some e) := by
  simp only [addAll]
  rw [h]

/-- A building composer under the ceiling accepts one more member. -/
theorem atcAddTransaction_ok {a : AtcState} (t : TransactionWithSigner)
    (ha : a.status = .building) (hlen : a.txns.length ≠ 16) :
    atcAddTransaction a t = Except.ok { a with txns := a.txns ++ [t] } := by
  simp only [atcAddTransaction]
  rw [if_neg (by simp [ha]), if_neg (by simp [hlen])]

/-- A building composer already holding 16 members refuses the next one. -/
theorem atcAddTransaction_full {a : AtcState} (t : TransactionWithSigner)
    (ha : a.status = .building) (hlen : a.txns.length = 16) :
    atcAddTransaction a t =
      Except.error "Adding an additional transaction exceeds the maximum atomic group size" := by
  simp only [atcAddTransaction]
  rw [if_neg (by simp [ha]), if_pos (by simp [hlen])]

/-- Adding a list that fits under the 16-member ceiling appends it whole. -/
theorem addAll_ok_of_fits :
    ∀ (l : List TransactionWithSigner) (a : AtcState), a.status = .building →
    a.txns.length + l.length ≤ 16 →
    addAll a l = (⟨a.txns ++ l, .building⟩, none) := by
  intro l
  induction l with
  | nil =>
    intro a ha _
    simp only [addAll, List.append_nil]
    cases a
    simp_all
  | cons t rest ih =>
    intro a ha hlen
    simp only [List.length_cons] at hlen
    rw [addAll_cons_ok (atcAddTransaction_ok t ha (by omega))]
    have := ih { a with txns := a.txns ++ [t] } ha
      (by simp only [List.length_append, List.length_cons, List.length_nil]; omega)
    rw [this]
    simp [List.append_assoc]

/-- Adding a list that overflows the 16-member ceiling fails with the
capacity error, leaving exactly 16 partially-added members behind and the
backing composer still building. -/
theorem addAll_overflow :
    ∀ (l : List TransactionWithSigner) (a : AtcState), a.status = .building →
    a.txns.length ≤ 16 → 16 < a.txns.length + l.length →
    (addAll a l).2 =
      some "Adding an additional transaction exceeds the maximum atomic group size" ∧
    (addAll a l).1.txns.length = 16 ∧ (addAll a l).1.status = .building := by
  intro l
  induction l with
  | nil =>
    intro a _ h16 hgt
    simp only [List.length_nil] at hgt
    omega
  | cons t rest ih =>
    intro a ha h16 hgt
    simp only [List.length_cons] at hgt
    by_cases h : a.txns.length = 16
    · rw [addAll_cons_err (atcAddTransaction_full t ha h)]
      exact ⟨rfl, h, ha⟩
    · rw [addAll_cons_ok (atcAddTransaction_ok t ha h)]
      apply ih
      · exact ha
      · simp only [List.length_append, List.length_cons, List.length_nil]
        omega
      · simp only [List.length_append, List.length_cons, List.length_nil]
        omega

/-- Scrubbing group ids is idempotent. -/
theorem stripGroup_idem (t : TransactionWithSigner) : stripGroup (stripGroup t) = stripGroup t :=
  rfl

/-- Scrubbing undoes the group assignment of `buildGroup`. -/
theorem map_stripGroup_map_setGroup (gid : Nat) :
    ∀ l : List TransactionWithSigner,
    (l.map fun t => { t with txn := { t.txn with group := some gid } }).map stripGroup =
      l.map stripGroup := by
  intro l
  induction l with
  | nil => rfl
  | cons h t ih =>
    simp only [List.map_cons, ih]
    rfl

/-- A building composer holding a non-empty member list links and returns
all of them; the members are unchanged up to group ids. -/
theorem atcBuildGroup_building_ok (l : List TransactionWithSigner) (hne : l ≠ []) :
    ∃ g, atcBuildGroup ⟨l, .building⟩ = Except.ok (⟨g, .built⟩, g) ∧
      g.map stripGroup = l.map stripGroup := by
  simp only [atcBuildGroup]
  rw [if_neg (by simp [hne])]
  by_cases h1 : l.length > 1
  · rw [if_pos h1]
    exact ⟨_, rfl, map_stripGroup_map_setGroup _ l⟩
  · rw [if_neg h1]
    exact ⟨l, rfl, rfl⟩

/-- Unfolding of `build` once the pending list has resolved successfully. -/
theorem build_building_ok_eq (env : Env) (s : ComposerState) (sp : SuggestedParams)
    (l : List TransactionWithSigner) (hstat : s.atc.status = .building)
    (hsp : env.getSuggestedParams = .ok sp)
    (hba : buildAll env s.defaultValidityWindow s.txns sp = Except.ok l) :
    build env s =
      match addAll s.atc l with
      | (a2, some e) => ({ s with atc := a2 }, .error e)
      | (a2, none) =>
        match atcBuildGroup a2 with
        | .error e => ({ s with atc := a2 }, .error e)
        | .ok (a3, g) => ({ s with atc := a3 }, .ok g) := by
  rw [build_building_eq env s sp hstat hsp, hba]

/-- Unfolding of `build` when the member adds fail partway. -/
theorem build_add_err_eq (env : Env) (s : ComposerState) (sp : SuggestedParams)
    (l : List TransactionWithSigner) (a2 : AtcState) (e : String)
    (hstat : s.atc.status = .building) (hsp : env.getSuggestedParams = .ok sp)
    (hba : buildAll env s.defaultValidityWindow s.txns sp = Except.ok l)
    (haa : addAll s.atc l = (a2, some e)) :
    build env s = ({ s with atc := a2 }, Except.error e) := by
  rw [build_building_ok_eq env s sp l hstat hsp hba, haa]

/-- Unfolding of `build` when every member add succeeds. -/
theorem build_add_ok_eq (env : Env) (s : ComposerState) (sp : SuggestedParams)
    (l : List TransactionWithSigner) (a2 : AtcState)
    (hstat : s.atc.status = .building) (hsp : env.getSuggestedParams = .ok sp)
    (hba : buildAll env s.defaultValidityWindow s.txns sp = Except.ok l)
    (haa : addAll s.atc l = (a2, none)) :
    build env s =
      match atcBuildGroup a2 with
      | .error e => ({ s with atc := a2 }, .error e)
      | .ok (a3, g) => ({ s with atc := a3 }, .ok g) := by
  rw [build_building_ok_eq env s sp l hstat hsp hba, haa]

/-- C3: a pending list whose resolution yields more than
`MAX_TRANSACTION_GROUP_SIZE` transactions makes `build()` fail with the
capacity error, and a repeated `build()` fails the same way, so no partial
group ever becomes observable; and any successful `build()` returns the
entire resolved list (up to the group ids it assigns) — never a partial
group. -/
theorem c3_capacity_ceiling :
    (∀ (env : Env) (s : ComposerState) (sp : SuggestedParams)
      (l : List TransactionWithSigner),
      s.atc = {} → env.getSuggestedParams = Except.ok sp →
      buildAll env s.defaultValidityWindow s.txns sp = Except.ok l →
      MAX_TRANSACTION_GROUP_SIZE < l.length →
      (build env s).2 =
        Except.error "Adding an additional transaction exceeds the maximum atomic group size" ∧
      (build env (build env s).1).2 =
        Except.error "Adding an additional transaction exceeds the maximum atomic group size") ∧
    (∀ (env : Env) (s : ComposerState) (sp : SuggestedParams)
      (l g : List TransactionWithSigner),
      s.atc = {} → env.getSuggestedParams = Except.ok sp →
      buildAll env s.defaultValidityWindow s.txns sp = Except.ok l →
      (build env s).2 = Except.ok g → g.map stripGroup = l.map stripGroup) := by
  have hover16 : ∀ (env : Env) (s : ComposerState) (sp : SuggestedParams)
      (l : List TransactionWithSigner),
      s.atc.status = .building → s.atc.txns.length ≤ 16 →
      env.getSuggestedParams = Except.ok sp →
      buildAll env s.defaultValidityWindow s.txns sp = Except.ok l →
      16 < s.atc.txns.length + l.length →
      ∃ a2 : AtcState, build env s = ({ s with atc := a2 },
          Except.error "Adding an additional transaction exceeds the maximum atomic group size") ∧
        a2.txns.length = 16 ∧ a2.status = .building := by
    intro env s sp l hstat hle hsp hba hgt
    have hover := addAll_overflow l s.atc hstat hle hgt
    rcases haa : addAll s.atc l with ⟨a2, e2⟩
    rw [haa] at hover
    rcases e2 with _ | e2
    · exact absurd hover.1 (by simp)
    · have he2 : e2 = "Adding an additional transaction exceeds the maximum atomic group size" := by
        simpa using hover.1
      subst he2
      exact ⟨a2, build_add_err_eq env s sp l a2 _ hstat hsp hba haa, hover.2.1, hover.2.2⟩
  constructor
  · intro env s sp l ha hsp hba hlen
    have hstat : s.atc.status = .building := by rw [ha]
    have hlen16 : (16 : Nat) < l.length := by
      simpa [MAX_TRANSACTION_GROUP_SIZE] using hlen
    obtain ⟨a2, hb1, ha2len, ha2stat⟩ := hover16 env s sp l hstat (by rw [ha]; simp) hsp hba
      (by rw [ha]; simpa using hlen16)
    have hfst : (build env s).1 = { s with atc := a2 } := by rw [hb1]
    obtain ⟨a3, hb2, _, _⟩ := hover16 env { s with atc := a2 } sp l ha2stat
      (by simp [ha2len]) hsp hba (by simp [ha2len]; omega)
    refine ⟨by rw [hb1], ?_⟩
    rw [hfst, hb2]
  · intro env s sp l g ha hsp hba hok
    have hstat : s.atc.status = .building := by rw [ha]
    by_cases hbig : 16 < l.length
    · obtain ⟨a2, hb1, _, _⟩ := hover16 env s sp l hstat (by rw [ha]; simp) hsp hba
        (by rw [ha]; simpa using hbig)
      rw [hb1] at hok
      exact absurd hok (by simp)
    · have hfits : s.atc.txns.length + l.length ≤ 16 := by
        rw [ha]
        simpa using Nat.le_of_not_lt hbig
      have haa := addAll_ok_of_fits l s.atc hstat hfits
      rw [ha] at haa
      simp only [List.nil_append] at haa
      rcases hl : l with _ | ⟨t0, lrest⟩
      · rw [hl] at haa hba
        have hbuild := build_add_ok_eq env s sp [] ⟨[], .building⟩ hstat hsp hba (by rw [ha, haa])
        have hatc : atcBuildGroup (⟨[], .building⟩ : AtcState) =
            Except.error "Cannot build a group with zero transactions" := rfl
        rw [hatc] at hbuild
        rw [hbuild] at hok
        exact absurd hok (by simp)
      · rw [hl] at haa hba
        obtain ⟨g2, hbg, hstripg⟩ := atcBuildGroup_building_ok (t0 :: lrest) (by simp)
        have hbuild := build_add_ok_eq env s sp (t0 :: lrest) ⟨t0 :: lrest, .building⟩
          hstat hsp hba (by rw [ha, haa])
        rw [hbg] at hbuild
        rw [hbuild] at hok
        have hg : g = g2 := by
          injection hok with hok
          exact hok.symm
        rw [hg, hstripg]

/-- C3 (witness): seventeen already-signed intents make the concrete
composer fail with the capacity error, on the first and on a repeated
`build()`. -/
theorem c3_capacity_ceiling_witness :
    (build testEnv sOverflow).2 =
      Except.error "Adding an additional transaction exceeds the maximum atomic group size" ∧
    (build testEnv (build testEnv sOverflow).1).2 =
      Except.error "Adding an additional transaction exceeds the maximum atomic group size" :=
  c3_capacity_ceiling.1 testEnv sOverflow testParams (List.replicate 17 sampleTws)
    rfl rfl (by decide) (by decide)

/-- Transaction-typed entries distribute over appended `methodArgs`. -/
theorem extractTxnArgs_append :
    ∀ x y : List ABIArgument, extractTxnArgs (x ++ y) = extractTxnArgs x ++ extractTxnArgs y := by
  intro x y
  induction x with
  | nil => rfl
  | cons a rest ih =>
    cases a with
    | value v => simpa [extractTxnArgs] using ih
    | txn t => simpa [extractTxnArgs] using ih

/-- Spreading a transaction list into `methodArgs` contributes exactly that
list of transactions. -/
theorem extractTxnArgs_map_txn :
    ∀ ts : List TransactionWithSigner, extractTxnArgs (ts.map ABIArgument.txn) = ts := by
  intro ts
  induction ts with
  | nil => rfl
  | cons t rest ih => simpa [extractTxnArgs] using ih

/-- Successful resolution of a non-empty argument list splits into the head
argument's contribution followed by the rest, in discovery order. -/
theorem collectMethodArgs_cons_ok {env : Env} {dvw : Nat} {outer : CommonTransactionParams}
    {a : JSVal} {rest : JSValList} {sp : SuggestedParams} {m : List ABIArgument}
    (h : collectMethodArgs env dvw outer (.cons a rest) sp = Except.ok m) :
    ∃ c m2, collectOneArg env dvw outer a sp = Except.ok c ∧
      collectMethodArgs env dvw outer rest sp = Except.ok m2 ∧ m = c ++ m2 ∧
      extractTxnArgs m = extractTxnArgs c ++ extractTxnArgs m2 := by
  simp only [collectMethodArgs] at h
  split at h
  · exact absurd h (by simp)
  · rename_i c hc
    split at h
    · exact absurd h (by simp)
    · rename_i m2 hm2
      injection h with h
      exact ⟨c, m2, hc, hm2, h.symm, by rw [← h, extractTxnArgs_append]⟩

/-- Resolving an empty argument list contributes nothing. -/
theorem collectMethodArgs_nil_ok {env : Env} {dvw : Nat} {outer : CommonTransactionParams}
    {sp : SuggestedParams} {m : List ABIArgument}
    (h : collectMethodArgs env dvw outer .nil sp = Except.ok m) : m = [] := by
  have h0 : collectMethodArgs env dvw outer .nil sp = Except.ok [] := rfl
  rw [h0] at h
  injection h with h
  exact h.symm

/-- Evaluation of the classifier on a nested method-call argument: neither
an ABI value nor a signed transaction, so the recursive branch runs. -/
theorem collectOneArg_methodCall (env : Env) (dvw : Nat) (outer : CommonTransactionParams)
    (c : MethodCallCore) (a : JSValList) (sp : SuggestedParams) :
    collectOneArg env dvw outer (.jsMethodCall c a) sp =
      match collectMethodArgs env dvw c.app.common a sp with
      | .error e => .error e
      | .ok nm =>
        match assembleMethodCall env dvw c sp nm with
        | .error e => .error e
        | .ok ts => .ok (ts.map ABIArgument.txn) := rfl

/-- Evaluation of the classifier on a bare (unawaited) transaction
argument: it is resolved and paired with the enclosing call's signer or the
registry lookup for its sender. -/
theorem collectOneArg_txn (env : Env) (dvw : Nat) (outer : CommonTransactionParams)
    (t : Transaction) (sp : SuggestedParams) :
    collectOneArg env dvw outer (.jsTxn t) sp =
      Except.ok [.txn ⟨t, outer.signer.getD (env.getSigner t.sender)⟩] := rfl

/-- A successfully resolved nested method-call argument contributes the
nested call's entire resolved transaction list, spread in order. -/
theorem collectOneArg_methodCall_ok_inversion {env : Env} {dvw : Nat}
    {outer : CommonTransactionParams} {c : MethodCallCore} {a : JSValList}
    {sp : SuggestedParams} {cc : List ABIArgument}
    (h : collectOneArg env dvw outer (.jsMethodCall c a) sp = Except.ok cc) :
    ∃ nm ts, collectMethodArgs env dvw c.app.common a sp = Except.ok nm ∧
      assembleMethodCall env dvw c sp nm = Except.ok ts ∧ cc = ts.map ABIArgument.txn := by
  rw [collectOneArg_methodCall] at h
  split at h
  · exact absurd h (by simp)
  · rename_i nm hnm
    split at h
    · exact absurd h (by simp)
    · rename_i ts hts
      injection h with h
      exact ⟨nm, ts, hnm, hts, h.symm⟩

/-- C1: every transaction produced by a nested argument precedes the
enclosing call's own transaction, in argument-discovery order — a
successful `buildMethodCall` returns the transaction-typed `methodArgs`
contributions followed by the common-built method-call transaction, and the
argument loop concatenates per-argument contributions in order; in the
doubly-nested scenario the resolved group is exactly the three transactions
innermost-bare, inner call, outer call. -/
theorem c1_nested_resolution_order :
    (∀ (env : Env) (dvw : Nat) (core : MethodCallCore) (args : JSValList)
      (sp : SuggestedParams) (l : List TransactionWithSigner),
      buildMethodCall env dvw core args sp = Except.ok l →
      ∃ m bt, collectMethodArgs env dvw core.app.common args sp = Except.ok m ∧
        commonTxnBuildStep env dvw core.app.common
          (makeMethodCallTxn env core (core.app.appId.getD 0)
            (resolveApprovalProgram env core.app) (resolveClearProgram env core.app) sp) sp =
          Except.ok bt ∧
        l = (extractTxnArgs m).map stripGroup ++
          [stripGroup (TransactionWithSigner.mk bt (resolveSigner env core.app.common))]) ∧
    (∀ (env : Env) (dvw : Nat) (outer : CommonTransactionParams) (a : JSVal)
      (rest : JSValList) (sp : SuggestedParams) (m : List ABIArgument),
      collectMethodArgs env dvw outer (.cons a rest) sp = Except.ok m →
      ∃ c m2, collectOneArg env dvw outer a sp = Except.ok c ∧
        collectMethodArgs env dvw outer rest sp = Except.ok m2 ∧ m = c ++ m2 ∧
        extractTxnArgs m = extractTxnArgs c ++ extractTxnArgs m2) ∧
    (∀ (env : Env) (dvw : Nat) (outerC innerC : MethodCallCore) (bare : Transaction)
      (sp : SuggestedParams) (l : List TransactionWithSigner),
      buildMethodCall env dvw outerC
        (.cons (.jsMethodCall innerC (.cons (.jsTxn bare) .nil)) .nil) sp = Except.ok l →
      ∃ bi bo,
        commonTxnBuildStep env dvw innerC.app.common
          (makeMethodCallTxn env innerC (innerC.app.appId.getD 0)
            (resolveApprovalProgram env innerC.app) (resolveClearProgram env innerC.app) sp)
          sp = Except.ok bi ∧
        commonTxnBuildStep env dvw outerC.app.common
          (makeMethodCallTxn env outerC (outerC.app.appId.getD 0)
            (resolveApprovalProgram env outerC.app) (resolveClearProgram env outerC.app) sp)
          sp = Except.ok bo ∧
        l.length = 3 ∧
        l = [stripGroup ⟨bare, innerC.app.common.signer.getD (env.getSigner bare.sender)⟩,
             stripGroup ⟨bi, resolveSigner env innerC.app.common⟩,
             stripGroup ⟨bo, resolveSigner env outerC.app.common⟩]) := by
  refine ⟨?_, ?_, ?_⟩
  · intro env dvw core args sp l h
    obtain ⟨m, hm, hasm⟩ := buildMethodCall_ok_inversion h
    obtain ⟨bt, hbt, hl⟩ := assembleMethodCall_ok_inversion hasm
    refine ⟨m, bt, hm, hbt, ?_⟩
    rw [hl]
    simp
  · intro env dvw outer a rest sp m h
    exact collectMethodArgs_cons_ok h
  · intro env dvw outerC innerC bare sp l h
    obtain ⟨m, hm, hasm⟩ := buildMethodCall_ok_inversion h
    obtain ⟨bo, hbo, hl⟩ := assembleMethodCall_ok_inversion hasm
    obtain ⟨c, m2, hc, hm2, hmeq, _⟩ := collectMethodArgs_cons_ok hm
    have hm2e : m2 = [] := collectMethodArgs_nil_ok hm2
    obtain ⟨nm, ts, hnm, hats, hce⟩ := collectOneArg_methodCall_ok_inversion hc
    obtain ⟨bi, hbi, hts⟩ := assembleMethodCall_ok_inversion hats
    obtain ⟨c2, m22, hc2, hm22, hmeq2, _⟩ := collectMethodArgs_cons_ok hnm
    have hm22e : m22 = [] := collectMethodArgs_nil_ok hm22
    rw [collectOneArg_txn] at hc2
    injection hc2 with hc2
    refine ⟨bi, bo, hbi, hbo, ?_, ?_⟩
    · rw [hl, hmeq, hm2e, hce, hts, hmeq2, hm22e, ← hc2]
      simp [extractTxnArgs_append, extractTxnArgs_map_txn, extractTxnArgs]
    · rw [hl, hmeq, hm2e, hce, hts, hmeq2, hm22e, ← hc2]
      simp [extractTxnArgs_append, extractTxnArgs_map_txn, extractTxnArgs, stripGroup_idem]

/-- C1 (witness): the doubly-nested scenario evaluated concretely — the
resolved group has exactly 3 transactions ordered innermost bare payment,
inner method call, outer method call. -/
theorem c1_nested_resolution_order_witness :
    ∃ bi bo,
      commonTxnBuildStep testEnv 10 innerCore.app.common
        (makeMethodCallTxn testEnv innerCore (innerCore.app.appId.getD 0)
          (resolveApprovalProgram testEnv innerCore.app)
          (resolveClearProgram testEnv innerCore.app) testParams) testParams = Except.ok bi ∧
      commonTxnBuildStep testEnv 10 outerCore.app.common
        (makeMethodCallTxn testEnv outerCore (outerCore.app.appId.getD 0)
          (resolveApprovalProgram testEnv outerCore.app)
          (resolveClearProgram testEnv outerCore.app) testParams) testParams = Except.ok bo ∧
      ((buildMethodCall testEnv 10 outerCore scenArgs testParams).toOption.getD []).length = 3 ∧
      (buildMethodCall testEnv 10 outerCore scenArgs testParams).toOption.getD [] =
        [stripGroup ⟨bareTxn, innerCore.app.common.signer.getD (testEnv.getSigner bareTxn.sender)⟩,
         stripGroup ⟨bi, resolveSigner testEnv innerCore.app.common⟩,
         stripGroup ⟨bo, resolveSigner testEnv outerCore.app.common⟩] :=
  c1_nested_resolution_order.2.2 testEnv 10 outerCore innerCore bareTxn testParams
    ((buildMethodCall testEnv 10 outerCore scenArgs testParams).toOption.getD []) (by decide)

end Composer
